import Mathlib

/-!
# Verification of the SABER aggregation–normalization–residual pipeline

Shallow embedding, over exact rationals, of the statistical core of the
JQ-dev/Education repository:

* the grade-11 and grade-3/5/9 aggregation pipelines (`Saber11.py`,
  `Saber359.py`) and the cross-grade pivot + standardization + clipping
  step (`ICFES 35911.py`, the file shipped as `src/unnamed/part_000`);
* the 2024 dashboard aggregation (`aggregate_by_school` in `app.py`);
* the equity KPI engine (`calculate_kpis` in `app.py`, all six
  indicator blocks — EALG, RUCDI, ERR, GNCTP, MEF, SVS — with their
  complete guard structures);
* the value-added residual construction and the ranking table
  (`update_prediction_model`, `update_ranking_table` in `app.py`).

Missing floating-point values (pandas `NaN`) are modelled as `none` in
`Option ℚ`; a float `NaN` produced by `0/0` is likewise modelled as
`none`.  Standard deviations are irrational in general, so functions
that divide by a standard deviation take it as an explicit rational
parameter `s`; theorems that need the true standard deviation carry the
hypothesis `s ^ 2 = sampleVar xs` and are instantiated on data whose
variance is a perfect square.
-/

/-- Sum-divided-by-length mean of a list of rationals (`Series.mean`
restricted to the non-missing values; callers guard against the empty
list exactly where pandas would produce `NaN`). -/
def sMean (xs : List ℚ) : ℚ := xs.sum / xs.length

/-- pandas sample variance (`ddof = 1`): `Σ (x - mean)² / (n - 1)`. -/
def sampleVar (xs : List ℚ) : ℚ :=
  ((xs.map (fun x => (x - sMean xs) ^ 2)).sum) / ((xs.length : ℚ) - 1)

/-- Mean of a column that may have no contributing values: pandas
`mean` returns `NaN` (here `none`) on an empty set of non-missing
values. -/
def optMean (xs : List ℚ) : Option ℚ :=
  if xs = [] then none else some (sMean xs)

/-- The clipping step of `ICFES 35911.py`:
`lambda x: max ( min(x,3.5),-3.5)` with the literal bound 3.5. -/
def clip35 (x : ℚ) : ℚ := max (min x (7/2)) (-(7/2))

/-- One table column, cell by cell; `none` is a pandas `NaN`. -/
abbrev Col := List (Option ℚ)

/-- The present (non-`NaN`) values of a column. -/
def presentVals (col : Col) : List ℚ := col.filterMap id

/-- The standardization step
`(col - col.mean()) / col.std()` of `ICFES 35911.py`, elementwise over
one measure column, with the (possibly irrational) column standard
deviation supplied as the parameter `s`.  Float semantics of the
degenerate cases, translated faithfully:

* fewer than two present values: `col.std()` is `NaN` (`ddof = 1`), so
  every cell of the result is `NaN`;
* `s = 0`: every present value equals the column mean, so each present
  cell becomes `0/0 = NaN`; missing cells stay `NaN`.

No diagnostic of any kind is produced — the source line performs the
arithmetic unconditionally. -/
def standardizeCol (s : ℚ) (col : Col) : Col :=
  let xs := presentVals col
  if xs.length ≤ 1 ∨ s = 0 then col.map (fun _ => none)
  else col.map (Option.map (fun x => (x - sMean xs) / s))

/-- The clipping pass over one column: `NaN` cells stay `NaN`
(`min`/`max` propagate `NaN` through the source's lambda). -/
def clipCol (col : Col) : Col := col.map (Option.map clip35)

/-- Standardize-then-clip: the complete per-column normalization of
`ICFES 35911.py` (applied there to each of the eight measure columns of
the `Colegios` and `Municipios` tables). -/
def normalizeCol (s : ℚ) (col : Col) : Col := clipCol (standardizeCol s col)

/-- `s` is the true pandas standard deviation of the present values of
a column: nonnegative square root of the sample variance. -/
def isStdOf (s : ℚ) (xs : List ℚ) : Prop := 0 ≤ s ∧ s ^ 2 = sampleVar xs

/-!
## The grade pipelines (`Saber11.py`, `Saber359.py`)

`Saber11.py` keeps, per student record, the columns
`periodo`, `cole_cod_dane_establecimiento`, `punt_lectura_critica`,
`punt_matematicas` (the municipality frame `df_11M` is identical with
the municipality code in place of the school code, so the same
embedding models both).  Every retained column is numeric, and
`df.replace(0, np.nan)` is applied to the whole frame. -/

/-- One retained row of `df_11C` / `df_11M` (`Saber11.py`). -/
structure S11Row where
  periodo : Option ℚ
  cole : Option ℚ
  lectura : Option ℚ
  mate : Option ℚ
deriving DecidableEq

/-- One retained numeric row of `df_359C` / `df_359M` (`Saber359.py`);
the school frame's name column is a string and untouched by the numeric
`replace`, so it is omitted. -/
structure S359Row where
  periodo : Option ℚ
  cole : Option ℚ
  leng : Option ℚ
  mate : Option ℚ
  grado : Option ℚ
deriving DecidableEq

/-- `df.replace(v, np.nan)` on a single cell. -/
def replaceVal (v : ℚ) (c : Option ℚ) : Option ℚ :=
  c.bind (fun x => if x = v then none else some x)

/-- `df_11C = df_11C.replace(0, np.nan)`: the whole-frame sentinel
replacement of `Saber11.py` (it hits every retained column). -/
def replaceAll0 (r : S11Row) : S11Row :=
  ⟨replaceVal 0 r.periodo, replaceVal 0 r.cole,
   replaceVal 0 r.lectura, replaceVal 0 r.mate⟩

/-- `df_359C = df_359C.replace(100, np.nan)`: the whole-frame sentinel
replacement of `Saber359.py`. -/
def replaceAll100 (r : S359Row) : S359Row :=
  ⟨replaceVal 100 r.periodo, replaceVal 100 r.cole,
   replaceVal 100 r.leng, replaceVal 100 r.mate, replaceVal 100 r.grado⟩

/-- One row of an aggregated per-grade frame
(`df_11_Colegios`, `df_359_Colegios`, and their municipality twins)
after the final column renaming: `(CODIGO, Grado, N, Lenguaje,
Matemáticas)`. -/
structure AggRow where
  key : ℚ
  grado : ℚ
  n : ℕ
  leng : Option ℚ
  mate : Option ℚ
deriving DecidableEq

/-- The group keys of the `Saber11.py` aggregation: the distinct
present school codes (after the sentinel replacement). -/
def agg11Keys (rows : List S11Row) : List ℚ :=
  (rows.filterMap (fun r => r.cole)).dedup

/-- One aggregated row of `df_11_Colegios` for school code `k`:
`count` of the non-missing `periodo` cells of the group, `mean` of each
score column over its non-missing cells (`NaN` if none contribute),
the means multiplied by 5, and `Grado = 11` attached. -/
def agg11Row (rows : List S11Row) (k : ℚ) : AggRow :=
  let g := rows.filter (fun r => decide (r.cole = some k))
  { key := k, grado := 11,
    n := (g.filterMap (fun r => r.periodo)).length,
    leng := (optMean (g.filterMap (fun r => r.lectura))).map (fun m => m * 5),
    mate := (optMean (g.filterMap (fun r => r.mate))).map (fun m => m * 5) }

/-- `Saber11.py` aggregation:
`groupby(['cole_cod_dane_establecimiento']).agg({'periodo':'count',
'punt_lectura_critica':'mean', 'punt_matematicas':'mean'})`, then the
mean columns multiplied by 5 and `Grado = 11` attached.  pandas
`groupby` drops rows whose key is `NaN`. -/
def groupAgg11 (rows : List S11Row) : List AggRow :=
  let rows := rows.map replaceAll0
  (agg11Keys rows).map (agg11Row rows)

/-- The group keys of the `Saber359.py` aggregation: the distinct
present (school code, grade) pairs; a row missing either is dropped by
`groupby`. -/
def agg359Keys (rows : List S359Row) : List (ℚ × ℚ) :=
  (rows.filterMap (fun r =>
    match r.cole, r.grado with
    | some c, some g => some (c, g)
    | _, _ => none)).dedup

/-- One aggregated row of `df_359_Colegios` for the (school code,
grade) pair `kg`; no rescaling is applied in this pipeline. -/
def agg359Row (rows : List S359Row) (kg : ℚ × ℚ) : AggRow :=
  let g := rows.filter (fun r => decide (r.cole = some kg.1 ∧ r.grado = some kg.2))
  { key := kg.1, grado := kg.2,
    n := (g.filterMap (fun r => r.periodo)).length,
    leng := optMean (g.filterMap (fun r => r.leng)),
    mate := optMean (g.filterMap (fun r => r.mate)) }

/-- `Saber359.py` aggregation:
`groupby(['COLE_COD_DANE_ESTABLECIMIENTO','ESTU_GRADO']).agg(...)` with
the same aggregation dictionary as the grade-11 pipeline. -/
def groupAgg359 (rows : List S359Row) : List AggRow :=
  let rows := rows.map replaceAll100
  (agg359Keys rows).map (agg359Row rows)

/-- `df_Colegios = pd.concat([df_359_Colegios, df_11_Colegios])`
(`ICFES 35911.py`; identically for the municipality frames). -/
def combinedFrames (rows11 : List S11Row) (rows359 : List S359Row) : List AggRow :=
  groupAgg359 rows359 ++ groupAgg11 rows11

/-- One cell of
`pivot_table(index='CODIGO', columns='Grado', values=...)`:
the default `aggfunc='mean'` averages the non-missing values carried by
the source rows with this key and grade (`NaN` when none contribute). -/
def pivotCell (tab : List AggRow) (c g : ℚ) (f : AggRow → Option ℚ) : Option ℚ :=
  optMean ((tab.filter (fun r => decide (r.key = c ∧ r.grado = g))).filterMap f)

/-- The row index of the pivot table: the distinct keys of the combined
frame. -/
def pivotKeys (tab : List AggRow) : List ℚ := (tab.map (fun r => r.key)).dedup

/-- One measure column (`Lenguaje Grado g` or `Matemáticas Grado g`) of
the pivoted `Colegios` / `Municipios` table, listed along the row
index. -/
def pivotCol (tab : List AggRow) (g : ℚ) (f : AggRow → Option ℚ) : Col :=
  (pivotKeys tab).map (fun c => pivotCell tab c g f)

/-- The eight measure columns of the pivoted cross-grade table, in the
order fixed by the source's column renaming (`Lenguaje Grado
3/5/9/11`, then `Matemáticas Grado 3/5/9/11`). -/
def pivotMeasureCols (tab : List AggRow) : List Col :=
  [pivotCol tab 3 (fun r => r.leng), pivotCol tab 5 (fun r => r.leng),
   pivotCol tab 9 (fun r => r.leng), pivotCol tab 11 (fun r => r.leng),
   pivotCol tab 3 (fun r => r.mate), pivotCol tab 5 (fun r => r.mate),
   pivotCol tab 9 (fun r => r.mate), pivotCol tab 11 (fun r => r.mate)]

/-- The normalized cross-grade table: each measure column standardized
against its own column mean / standard deviation and clipped to
`±3.5` (`ICFES 35911.py`, applied to `Colegios` and `Municipios`
alike).  The per-column standard deviations — irrational in general —
are supplied as the parameter list `stds`, paired positionally with the
eight measure columns. -/
def normalizedPivotTable (stds : List ℚ) (tab : List AggRow) : List Col :=
  List.zipWith normalizeCol stds (pivotMeasureCols tab)

/-!
## The 2024 dashboard aggregation (`aggregate_by_school`, `app.py`)

`aggregate_by_school` groups the student frame by the tuple of the
grouping columns that are present and aggregates every score column
with `['mean', 'count', 'std']`.  Two score columns suffice to express
the claims; the `std` output (an irrational square root) is carried as
the sample variance, from which the emitted value is the square
root. -/

/-- One student row of the 2024 frame: the grouping-column tuple
(cell-wise optional, as pandas `groupby` drops a row whose key tuple
has any `NaN`) and two representative score columns. -/
structure SRecord where
  keys : List (Option String)
  lectura : Option ℚ
  mate : Option ℚ
deriving DecidableEq

/-- The effective group key of a record: `some` of the key tuple when
every key cell is present, else `none` (the record is then excluded
from the aggregation — pandas `groupby(dropna=True)`). -/
def effKey (r : SRecord) : Option (List String) := r.keys.mapM id

/-- One aggregated school row (wide format): for every score column the
`count` of contributing non-missing values, their `mean` (`NaN` when no
value contributes) and their sample variance (`std²`; `NaN` when fewer
than two values contribute). -/
structure SchoolAgg where
  key : List String
  lecturaCount : ℕ
  lecturaMean : Option ℚ
  lecturaVar : Option ℚ
  mateCount : ℕ
  mateMean : Option ℚ
  mateVar : Option ℚ
deriving DecidableEq

/-- Sample variance of the contributing values, `NaN` below two values
(pandas `std` with `ddof = 1`, squared). -/
def optVar (xs : List ℚ) : Option ℚ :=
  if xs.length ≤ 1 then none else some (sampleVar xs)

/-- `aggregate_by_school` (`app.py`, lines 156–201): one output row per
distinct present key tuple; each score column aggregated over exactly
the group's non-missing values.  A group materializes every score
column: a subject with no contributing value yields `count = 0` and a
`NaN` mean in that group's row, not an absent row. -/
def aggregateBySchool (rows : List SRecord) : List SchoolAgg :=
  let keys := (rows.filterMap effKey).dedup
  keys.map (fun k =>
    let g := rows.filter (fun r => decide (effKey r = some k))
    let ls := g.filterMap (fun r => r.lectura)
    let ms := g.filterMap (fun r => r.mate)
    { key := k,
      lecturaCount := ls.length, lecturaMean := optMean ls, lecturaVar := optVar ls,
      mateCount := ms.length, mateMean := optMean ms, mateVar := optVar ms })

/-- The relational reading of the wide aggregate table: one
`(group, subject, count, mean)` entry per score column of every emitted
row — the spec's `AggregateRow(g, s)` view of the output. -/
def emittedEntries (agg : List SchoolAgg) : List (List String × String × ℕ × Option ℚ) :=
  agg.flatMap (fun r =>
    [(r.key, "lectura", r.lecturaCount, r.lecturaMean),
     (r.key, "mate", r.mateCount, r.mateMean)])

/-!
## Sorting (`sort_values`) and the ranking table

`sort_values(by=col, ascending=False)` in pandas argsorts ascending
with the default `kind='quicksort'` and reverses the resulting index
order (`nargsort`).  On the small frames of the concrete inputs below
(fewer than 16 rows) numpy's introsort is a stable insertion sort, so
the descending order is the reverse of a stable ascending sort; the
embedding fixes exactly that behavior. -/

/-- Stable insertion into an ascending-sorted list: the new element
goes after every earlier element with an equal key. -/
def insertAscBy (k : α → ℚ) (x : α) : List α → List α
  | [] => [x]
  | y :: ys => if k x ≤ k y then x :: y :: ys else y :: insertAscBy k x ys

/-- Stable ascending sort by a rational key. -/
def sortAscBy (k : α → ℚ) : List α → List α
  | [] => []
  | x :: xs => insertAscBy k x (sortAscBy k xs)

/-- `sort_values(by=col, ascending=False)`: reverse of the stable
ascending argsort (pandas `nargsort`; exact for the sub-16-element
inputs used concretely here). -/
def sortValuesDesc (k : α → ℚ) (l : List α) : List α := (sortAscBy k l).reverse

/-- One row of the ranking table of `update_ranking_table` (`app.py`,
lines 2831–2840): the school entity and its sort-column score. -/
structure RankRow where
  name : String
  score : Option ℚ
deriving DecidableEq

/-- `update_ranking_table`'s ranking: drop rows with a missing sort
score (`dropna(subset=[sort_col])`), sort descending by the score
column alone, then `head(limit)` — but only when `limit` is truthy and
strictly below the row count (`if limit and limit < len(df_table)`). -/
def rankTable (limit : ℕ) (rows : List RankRow) : List RankRow :=
  let t := sortValuesDesc (fun r => r.score.getD 0)
    (rows.filter (fun r => r.score.isSome))
  if 0 < limit ∧ limit < t.length then t.take limit else t

/-!
## Value-added residuals (`update_prediction_model`, `app.py`)

After the model fit, the source computes
`df_model['predicted'] = model.predict(X)` and
`df_model['residual'] = df_model[target_col] - df_model['predicted']`;
the prediction vector enters the embedding as given data, and the
residual column is built exactly as in the source.  At student level
the per-school table averages `residual`, the target and `predicted`
with one `groupby(school_col).agg`. -/

/-- One fitted row before the residual column is added: entity name,
actual target value, model prediction. -/
structure PredRow where
  name : String
  actual : ℚ
  predicted : ℚ
deriving DecidableEq

/-- One row after `df_model['residual']` is assigned. -/
structure ResidRow where
  name : String
  actual : ℚ
  predicted : ℚ
  residual : ℚ
deriving DecidableEq

/-- `df_model['residual'] = df_model[target_col] - df_model['predicted']`
(lines 2319 and 2410). -/
def mkResiduals (rows : List PredRow) : List ResidRow :=
  rows.map (fun r => ⟨r.name, r.actual, r.predicted, r.actual - r.predicted⟩)

/-- The student-level branch's per-school table (lines 2321–2326):
`groupby(school_col).agg({'residual':'mean', target:'mean',
'predicted':'mean'})`, one row `(school, residual mean, actual mean,
predicted mean)` per distinct school name. -/
def schoolResiduals (rows : List ResidRow) : List (String × ℚ × ℚ × ℚ) :=
  let keys := (rows.map (fun r => r.name)).dedup
  keys.map (fun k =>
    let g := rows.filter (fun r => decide (r.name = k))
    (k, sMean (g.map (fun r => r.residual)),
        sMean (g.map (fun r => r.actual)),
        sMean (g.map (fun r => r.predicted))))

/-!
## The equity KPI engine (`calculate_kpis`, `app.py`)

Every indicator block follows one shape: a hard-coded default value and
default status are assigned first, a `try` block overwrites them only
when its data guards all pass, and the returned dictionary always
carries the current value, a thresholded status and `'calculated':
True`.  All six blocks (EALG, RUCDI, ERR, GNCTP, MEF, SVS) are embedded
below with their complete guard structures.  Where a block's computed
value depends on a fitted model or a floating square root — the EALG
regression's R², the GNCTP regression's gender coefficient, RUCDI's
pooled standard deviation, SVS's row-wise standard-deviation column —
that quantity enters the embedding as given data (exactly as the
prediction vector does in the residual engine below); everything else
is computed.

Python's `round(x, d)` rounds float ties half-to-even; no claim below
exercises a tie, so rational half-up rounding is an exact model on
every input used. -/

/-- `round(q, d)` on the rational model. -/
def roundTo (d : ℕ) (q : ℚ) : ℚ := ((round (q * 10 ^ d) : ℤ) : ℚ) / 10 ^ d

/-- One returned KPI dictionary, restricted to the fields the claims
speak about: `current`, `target`, `target_comparison`, `status`,
`calculated`. -/
structure KPIEntry where
  current : ℚ
  target : ℚ
  cmp : String
  status : String
  calculated : Bool
deriving DecidableEq

/-- The student-frame projection used by the student-level KPI blocks
(EALG, RUCDI, ERR, GNCTP): the categorical columns
`FAMI_ESTRATOVIVIENDA`, `COLE_AREA_UBICACION`, `ESTU_ETNIA`,
`ESTU_GENERO` and the candidate score columns each block selects
from. -/
structure Student where
  etnia : Option String
  genero : Option String
  area : Option String
  estrato : Option String
  lectura : Option ℚ
  ingles : Option ℚ
  naturales : Option ℚ
  globalScore : Option ℚ
  matematicas : Option ℚ
deriving DecidableEq

/-- The EALG status thresholding:
`'green' if ealg_value >= 0.85 else ('yellow' if ealg_value >= 0.70
else 'red')`. -/
def ealgStatus (v : ℚ) : String :=
  if 85/100 ≤ v then "green" else if 70/100 ≤ v then "yellow" else "red"

/-- The target column chosen by the EALG block: the first present among
`PUNT_GLOBAL`, `PUNT_MATEMATICAS`, `PUNT_LECTURA_CRITICA`. -/
def ealgTarget (hasGlob hasMate hasLect : Bool) (r : Student) : Option ℚ :=
  if hasGlob then r.globalScore
  else if hasMate then r.matematicas
  else if hasLect then r.lectura
  else none

/-- `df_reg = df_ses[ses_cols + [target_col]].dropna()`: the rows with
stratum, area and target value all present. -/
def ealgClean (hasGlob hasMate hasLect : Bool) (rows : List Student) :
    List (String × String × ℚ) :=
  rows.filterMap (fun r =>
    match r.estrato, r.area, ealgTarget hasGlob hasMate hasLect r with
    | some e, some a, some t => some (e, a, t)
    | _, _, _ => none)

/-- The EALG (Equity-Adjusted Learning Gap) block of `calculate_kpis`
(`app.py`, lines 276–328): defaults `ealg_value = 0.78`,
`ealg_status = 'red'`; the computation runs only when the frame has
more than 100 rows, a candidate target column and both SES columns, and
more than 50 rows survive `dropna`; it then overwrites the default with
`round(1 - r2, 3)` — `r2` being the in-sample score of the fitted
`LinearRegression`, which enters here as given model output — and its
thresholded status.  The entry always carries `target = 0.85`,
comparison `'>'` and `'calculated': True`. -/
def ealgKpi (r2 : ℚ) (hasGlob hasMate hasLect hasStrato hasArea : Bool)
    (rows : List Student) : KPIEntry :=
  let computed : Option (ℚ × String) :=
    if 100 < rows.length ∧ (hasGlob || hasMate || hasLect) = true
        ∧ hasStrato = true ∧ hasArea = true then
      if 50 < (ealgClean hasGlob hasMate hasLect rows).length then
        let v := roundTo 3 (1 - r2)
        some (v, ealgStatus v)
      else none
    else none
  match computed with
  | some (v, st) => ⟨v, 85/100, ">", st, true⟩
  | none => ⟨78/100, 85/100, ">", "red", true⟩

/-- The RUCDI status thresholding:
`'green' if rucdi_value <= 0.30 else ('yellow' if rucdi_value <= 0.50
else 'red')`. -/
def rucdiStatus (v : ℚ) : String :=
  if v ≤ 30/100 then "green" else if v ≤ 50/100 then "yellow" else "red"

/-- The score column chosen by the RUCDI block: the first present among
`PUNT_INGLES`, `PUNT_GLOBAL`, `PUNT_MATEMATICAS`. -/
def rucdiScore (hasIng hasGlob hasMate : Bool) (r : Student) : Option ℚ :=
  if hasIng then r.ingles
  else if hasGlob then r.globalScore
  else if hasMate then r.matematicas
  else none

/-- `df_area_clean = df_area[[area_col, score_col]].dropna()`. -/
def rucdiClean (hasIng hasGlob hasMate : Bool) (rows : List Student) :
    List (String × ℚ) :=
  rows.filterMap (fun r =>
    match r.area, rucdiScore hasIng hasGlob hasMate r with
    | some a, some s => some (a, s)
    | _, _ => none)

/-- The urban subgroup: rows whose uppercased area is `'URBANO'`. -/
def rucdiUrban (hasIng hasGlob hasMate : Bool) (rows : List Student) :
    List (String × ℚ) :=
  (rucdiClean hasIng hasGlob hasMate rows).filter
    (fun p => decide (p.1.toUpper = "URBANO"))

/-- The rural subgroup: rows whose uppercased area is `'RURAL'`. -/
def rucdiRural (hasIng hasGlob hasMate : Bool) (rows : List Student) :
    List (String × ℚ) :=
  (rucdiClean hasIng hasGlob hasMate rows).filter
    (fun p => decide (p.1.toUpper = "RURAL"))

/-- The RUCDI (Rural-Urban Competency Divergence Index) block of
`calculate_kpis` (`app.py`, lines 330–379): defaults
`rucdi_value = 0.62`, `rucdi_status = 'red'`; the computation runs only
when the frame has more than 100 rows, the area column and a candidate
score column, both subgroups exceed 10 rows, and the pooled standard
deviation is positive; it then overwrites the default with
`round(abs(urban_mean - rural_mean) / pooled_std, 3)` and its
thresholded status.  `ps` models
`pooled_std = sqrt((urban_std² + rural_std²) / 2)` — a floating square
root, entering as given data.  The entry always carries
`target = 0.30`, comparison `'<'` and `'calculated': True`. -/
def rucdiKpi (ps : ℚ) (hasArea hasIng hasGlob hasMate : Bool)
    (rows : List Student) : KPIEntry :=
  let computed : Option (ℚ × String) :=
    if 100 < rows.length ∧ hasArea = true ∧ (hasIng || hasGlob || hasMate) = true then
      if 10 < (rucdiUrban hasIng hasGlob hasMate rows).length
          ∧ 10 < (rucdiRural hasIng hasGlob hasMate rows).length then
        if 0 < ps then
          let v := roundTo 3
            (|sMean ((rucdiUrban hasIng hasGlob hasMate rows).map Prod.snd)
              - sMean ((rucdiRural hasIng hasGlob hasMate rows).map Prod.snd)| / ps)
          some (v, rucdiStatus v)
        else none
      else none
    else none
  match computed with
  | some (v, st) => ⟨v, 30/100, "<", st, true⟩
  | none => ⟨62/100, 30/100, "<", "red", true⟩

/-- `ethnic_keywords` of the ERR block. -/
def ethnicKeywords : List String :=
  ["INDIGENA", "AFRO", "NEGRO", "RAIZAL", "PALENQUERO", "ROM"]

/-- `is_ethnic_minority`: some keyword occurs in the uppercased
ethnicity value. -/
def isEthnicMinority (v : String) : Bool :=
  ethnicKeywords.any (fun kw => decide (kw.toList <:+: v.toUpper.toList))

/-- The ERR status thresholding:
`'green' if err_value >= 0.95 else ('yellow' if err_value >= 0.85 else
'red')`. -/
def errStatus (v : ℚ) : String :=
  if 95/100 ≤ v then "green" else if 85/100 ≤ v then "yellow" else "red"

/-- The score column chosen by the ERR block: the first present among
`PUNT_C_NATURALES`, `PUNT_GLOBAL`, `PUNT_MATEMATICAS` (column presence
is a frame-level fact, passed as the three flags). -/
def errScore (hasNat hasGlob hasMate : Bool) (r : Student) : Option ℚ :=
  if hasNat then r.naturales
  else if hasGlob then r.globalScore
  else if hasMate then r.matematicas
  else none

/-- The ERR (Ethnic Resilience Ratio) block of `calculate_kpis`:
defaults `err_value = 0.88`, `err_status = 'yellow'`; the computation
runs only when the frame has more than 100 rows, an `ESTU_ETNIA` column
and a candidate score column; it drops rows missing either value,
splits them by the minority keyword test, and — only when both
subgroups exceed 10 rows and the majority mean is positive — overwrites
the default with `round(minority_mean / national_mean, 3)` and its
thresholded status.  In every case the returned entry carries
`target = 0.95`, comparison `'>'` and `'calculated': True`. -/
def errClean (hasNat hasGlob hasMate : Bool) (rows : List Student) :
    List (String × ℚ) :=
  rows.filterMap (fun r =>
    match r.etnia, errScore hasNat hasGlob hasMate r with
    | some e, some s => some (e, s)
    | _, _ => none)

/-- The minority subgroup (`minority_mask` applied). -/
def errMinority (hasNat hasGlob hasMate : Bool) (rows : List Student) :
    List (String × ℚ) :=
  (errClean hasNat hasGlob hasMate rows).filter (fun p => isEthnicMinority p.1)

/-- The complement subgroup (`~minority_mask`). -/
def errMajority (hasNat hasGlob hasMate : Bool) (rows : List Student) :
    List (String × ℚ) :=
  (errClean hasNat hasGlob hasMate rows).filter (fun p => !(isEthnicMinority p.1))

def errKpi (hasEtnia hasNat hasGlob hasMate : Bool) (rows : List Student) : KPIEntry :=
  let computed : Option (ℚ × String) :=
    if 100 < rows.length ∧ hasEtnia = true ∧ (hasNat || hasGlob || hasMate) = true then
      if 10 < (errMinority hasNat hasGlob hasMate rows).length
          ∧ 10 < (errMajority hasNat hasGlob hasMate rows).length then
        let nationalMean := sMean ((errMajority hasNat hasGlob hasMate rows).map Prod.snd)
        let minorityMean := sMean ((errMinority hasNat hasGlob hasMate rows).map Prod.snd)
        if 0 < nationalMean then
          let v := roundTo 3 (minorityMean / nationalMean)
          some (v, errStatus v)
        else none
      else none
    else none
  match computed with
  | some (v, st) => ⟨v, 95/100, ">", st, true⟩
  | none => ⟨88/100, 95/100, ">", "yellow", true⟩

/-- The GNCTP status thresholding:
`'green' if abs(v) <= 2.0 else ('yellow' if abs(v) <= 5.0 else
'red')`. -/
def gnctpStatus (v : ℚ) : String :=
  if |v| ≤ 2 then "green" else if |v| ≤ 5 then "yellow" else "red"

/-- `df_gen_clean = df_gen[[gender_col, reading_col, math_col]].dropna()`. -/
def gnctpClean (rows : List Student) : List (String × ℚ × ℚ) :=
  rows.filterMap (fun r =>
    match r.genero, r.lectura, r.matematicas with
    | some g, some l, some m => some (g, l, m)
    | _, _, _ => none)

/-- The GNCTP (Gender-Neutral Critical Thinking Premium) block of
`calculate_kpis` (`app.py`, lines 440–489): defaults
`gnctp_value = -2.1`, `gnctp_status = 'yellow'`; the computation runs
only when the frame has more than 100 rows, the gender, reading and
math columns are all present, and more than 50 rows survive `dropna`;
it then overwrites the default with `round(model.coef_[1], 2)` — the
fitted regression's gender coefficient `beta`, entering as given model
output — and its thresholded status.  The entry always carries
`target = 0.0`, comparison `'≈'` and `'calculated': True`. -/
def gnctpKpi (beta : ℚ) (hasGen hasLect hasMate : Bool)
    (rows : List Student) : KPIEntry :=
  let computed : Option (ℚ × String) :=
    if 100 < rows.length ∧ hasGen = true ∧ hasLect = true ∧ hasMate = true then
      if 50 < (gnctpClean rows).length then
        let v := roundTo 2 beta
        some (v, gnctpStatus v)
      else none
    else none
  match computed with
  | some (v, st) => ⟨v, 0, "≈", st, true⟩
  | none => ⟨-21/10, 0, "≈", "yellow", true⟩

/-- pandas `Series.quantile(0.90)` with the default linear
interpolation: with the clean values sorted ascending and
`pos = 0.9 * (n - 1)`, the result is
`v[⌊pos⌋] + (pos - ⌊pos⌋) * (v[⌊pos⌋ + 1] - v[⌊pos⌋])`. -/
def pandasQuantile90 (xs : List ℚ) : ℚ :=
  let sorted := sortAscBy id xs
  let pos : ℚ := (9/10) * ((xs.length : ℚ) - 1)
  let idx : ℕ := (⌊pos⌋).toNat
  let frac : ℚ := pos - (idx : ℚ)
  let a := sorted.getD idx 0
  let b := sorted.getD (idx + 1) a
  a + frac * (b - a)

/-- The MEF status thresholding:
`'green' if mef_value >= 15 else ('yellow' if mef_value >= 10 else
'red')`. -/
def mefStatus (v : ℚ) : String :=
  if 15 ≤ v then "green" else if 10 ≤ v then "yellow" else "red"

/-- The MEF (Municipal Efficiency Frontier) block of `calculate_kpis`
(`app.py`, lines 491–533): defaults `mef_value = 11.0`,
`mef_status = 'yellow'`; when the municipality frame has more than 10
rows, a `*_mean` score column exists and more than 10 of its values are
non-missing, the default is overwritten with
`round((count(score >= quantile(0.90)) / n) * 100, 1)` — note the
inclusive `>=` in `(df_muni_clean[score_col] >= p90).sum()` — and its
thresholded status.  The entry always carries `target = 15.0`,
comparison `'>'` and `'calculated': True`. -/
def mefKpi (hasScore : Bool) (scores : List (Option ℚ)) : KPIEntry :=
  let computed : Option (ℚ × String) :=
    if 10 < scores.length ∧ hasScore = true then
      let clean := scores.filterMap id
      if 10 < clean.length then
        let p90 := pandasQuantile90 clean
        let above := (clean.filter (fun x => decide (p90 ≤ x))).length
        let v := roundTo 1 (((above : ℚ) / (clean.length : ℚ)) * 100)
        some (v, mefStatus v)
      else none
    else none
  match computed with
  | some (v, st) => ⟨v, 15, ">", st, true⟩
  | none => ⟨11, 15, ">", "yellow", true⟩

/-- Written from the spec's words, for comparison with `mefKpi` only:
"share of municipalities whose score strictly exceeds the 90th
percentile of all municipalities' scores, computed over the
municipality-level aggregate rows with a non-missing score", as a
percentage. -/
def mefStrictShareSpec (scores : List (Option ℚ)) : ℚ :=
  let clean := scores.filterMap id
  100 * ((clean.filter (fun x => decide (pandasQuantile90 clean < x))).length : ℚ)
    / (clean.length : ℚ)

/-- pandas `Series.median`: middle element of the sorted values, or the
average of the two middle elements on an even count. -/
def medianQ (xs : List ℚ) : ℚ :=
  let sorted := sortAscBy id xs
  if xs.length % 2 = 1 then sorted.getD (xs.length / 2) 0
  else (sorted.getD (xs.length / 2 - 1) 0 + sorted.getD (xs.length / 2) 0) / 2

/-- The SVS status thresholding:
`'green' if svs_value >= 0.80 else ('yellow' if svs_value >= 0.60 else
'red')`. -/
def svsStatus (v : ℚ) : String :=
  if 80/100 ≤ v then "green" else if 60/100 ≤ v then "yellow" else "red"

/-- `df_school_clean = df_school.dropna(subset=['mean_score',
'std_score'])`: one `(mean_score, std_score)` pair per school row where
both are non-missing.  Each row's `mean_score` (row-wise mean over its
present subject-mean cells) is computed; its `std_score` — a floating
square root — enters as given data, paired positionally like the
column standard deviations of the normalizer. -/
def svsClean (rows : List (List (Option ℚ))) (stdScores : List (Option ℚ)) :
    List (ℚ × ℚ) :=
  (List.zip (rows.map (fun cells => optMean (presentVals cells))) stdScores).filterMap
    (fun p =>
      match p.1, p.2 with
      | some m, some s => some (m, s)
      | _, _ => none)

/-- The SVS (School-Level Volatility Stabilizer) block of
`calculate_kpis` (`app.py`, lines 535–581): defaults
`svs_value = 0.71`, `svs_status = 'red'`; the computation runs only
when the school frame has more than 50 rows, `*_mean` score columns
exist, and more than 10 rows have both a row mean and a row standard
deviation; it then overwrites the default with
`round(max(0, min(1, 1 - median_cv * 2)), 3)` where
`cv = std_score / abs(mean_score)` per school, and its thresholded
status.  (`cv` is computed in exact arithmetic; a zero row mean would
give a float infinity in the source, a case no theorem here
exercises.)  The entry always carries `target = 0.80`, comparison `'>'`
and `'calculated': True`. -/
def svsKpi (hasScoreCols : Bool) (rows : List (List (Option ℚ)))
    (stdScores : List (Option ℚ)) : KPIEntry :=
  let computed : Option (ℚ × String) :=
    if 50 < rows.length ∧ hasScoreCols = true then
      if 10 < (svsClean rows stdScores).length then
        let medianCv := medianQ ((svsClean rows stdScores).map (fun p => p.2 / |p.1|))
        let v := roundTo 3 (max 0 (min 1 (1 - medianCv * 2)))
        some (v, svsStatus v)
      else none
    else none
  match computed with
  | some (v, st) => ⟨v, 80/100, ">", st, true⟩
  | none => ⟨71/100, 80/100, ">", "red", true⟩

/-!
## Helper lemmas
-/

lemma clip35_le (x : ℚ) : clip35 x ≤ 7/2 := by
  unfold clip35
  refine max_le (le_trans (min_le_right _ _) le_rfl) (by norm_num)

lemma neg_le_clip35 (x : ℚ) : -(7/2) ≤ clip35 x := le_max_right _ _

lemma exists_of_mem_zipWith {f : α → β → γ} {x : γ} :
    ∀ {as : List α} {bs : List β}, x ∈ List.zipWith f as bs →
      ∃ a b, a ∈ as ∧ b ∈ bs ∧ x = f a b := by
  intro as
  induction as with
  | nil => intro bs h; simp at h
  | cons a as ih =>
    intro bs h
    cases bs with
    | nil => simp at h
    | cons b bs =>
      rcases List.mem_cons.mp h with h | h
      · exact ⟨a, b, List.mem_cons_self _ _, List.mem_cons_self _ _, h⟩
      · obtain ⟨a', b', ha, hb, hx⟩ := ih h
        exact ⟨a', b', List.mem_cons_of_mem _ ha, List.mem_cons_of_mem _ hb, hx⟩

lemma presentVals_map (f : ℚ → ℚ) (col : Col) :
    presentVals (col.map (Option.map f)) = (presentVals col).map f := by
  simp [presentVals, List.filterMap_map, List.map_filterMap]

/-- Every present cell of a clipped column is a clipped value. -/
lemma mem_clipCol {col : Col} {cell : Option ℚ} (h : cell ∈ clipCol col)
    {v : ℚ} (hv : cell = some v) : ∃ y, v = clip35 y := by
  obtain ⟨c0, -, hc⟩ := List.mem_map.mp h
  subst hv
  cases c0 with
  | none => simp at hc
  | some y => exact ⟨y, by simpa using hc.symm⟩

/-- C2 / C5 core: any present value of a normalized column is a
clipped value, hence bounded. -/
lemma normalizeCol_mem_bounded {s : ℚ} {col : Col} {cell : Option ℚ}
    (h : cell ∈ normalizeCol s col) {v : ℚ} (hv : cell = some v) :
    -(7/2) ≤ v ∧ v ≤ 7/2 := by
  obtain ⟨y, rfl⟩ := mem_clipCol h hv
  exact ⟨neg_le_clip35 y, clip35_le y⟩

lemma sum_map_div (xs : List ℚ) (f : ℚ → ℚ) (s : ℚ) :
    (xs.map (fun x => f x / s)).sum = (xs.map f).sum / s := by
  induction xs with
  | nil => simp
  | cons a t ih =>
    simp only [List.map_cons, List.sum_cons, ih]
    rw [div_add_div_same]

lemma sum_map_center (xs : List ℚ) (m s : ℚ) :
    (xs.map (fun x => (x - m) / s)).sum = (xs.sum - xs.length * m) / s := by
  induction xs with
  | nil => simp
  | cons a t ih =>
    simp only [List.map_cons, List.sum_cons, ih, List.length_cons]
    rw [div_add_div_same]
    congr 1
    push_cast
    ring

/-- Centering a nonempty list at its own mean makes the (scaled)
values sum to zero, exactly. -/
lemma sum_center_zero (xs : List ℚ) (s : ℚ) (h : xs ≠ []) :
    (xs.map (fun x => (x - xs.sum / (xs.length : ℚ)) / s)).sum = 0 := by
  have hn : (xs.length : ℚ) ≠ 0 :=
    Nat.cast_ne_zero.mpr (List.length_pos.mpr h).ne'
  rw [sum_map_center]
  have h1 : xs.sum - (xs.length : ℚ) * (xs.sum / (xs.length : ℚ)) = 0 := by
    field_simp
  rw [h1, zero_div]

/-- Standardized values have mean exactly zero. -/
lemma sMean_standardized (xs : List ℚ) (s : ℚ) (h : xs ≠ []) :
    sMean (xs.map (fun x => (x - sMean xs) / s)) = 0 := by
  have h0 := sum_center_zero xs s h
  simp only [sMean] at h0 ⊢
  rw [h0, zero_div]

/-- Standardizing by the exact standard deviation gives sample
variance 1. -/
lemma sampleVar_standardized (xs : List ℚ) (s : ℚ) (h2 : 2 ≤ xs.length)
    (hs : s ≠ 0) (hvar : s ^ 2 = sampleVar xs) :
    sampleVar (xs.map (fun x => (x - sMean xs) / s)) = 1 := by
  have hne : xs ≠ [] := by
    intro h; subst h; simp at h2
  have hmean := sMean_standardized xs s hne
  have h2' : (2 : ℚ) ≤ (xs.length : ℚ) := by exact_mod_cast h2
  have hn1 : ((xs.length : ℚ) - 1) ≠ 0 := by
    intro h0
    have : (xs.length : ℚ) = 1 := by linarith
    linarith
  have hS : (xs.map (fun x => (x - sMean xs) ^ 2)).sum
      = s ^ 2 * ((xs.length : ℚ) - 1) := by
    have h := hvar
    simp only [sampleVar] at h
    field_simp at h
    linarith
  simp only [sampleVar]
  rw [hmean]
  simp only [sub_zero, List.map_map, List.length_map, Function.comp_def, div_pow]
  rw [sum_map_div, hS]
  field_simp

/-!
## C2: clipping bounds every normalized table value
-/

/-- C2: every present value of every measure column of the normalized
cross-grade table (school-level `Colegios` and municipality-level
`Municipios` are built by the same code) lies in `[-3.5, 3.5]`,
whatever the per-column standard deviations are — so in particular for
the true ones, even when the raw z-score exceeds the bound. -/
theorem c2_normalized_value_bounded
    (stds : List ℚ) (tab : List AggRow) (col : Col)
    (hcol : col ∈ normalizedPivotTable stds tab)
    (cell : Option ℚ) (hcell : cell ∈ col) (v : ℚ) (hv : cell = some v) :
    -(7/2) ≤ v ∧ v ≤ 7/2 := by
  obtain ⟨s, c, -, -, rfl⟩ := exists_of_mem_zipWith hcol
  exact normalizeCol_mem_bounded hcell hv

/-- Witness for C2 on a concrete two-school grade-3 table. -/
theorem c2_normalized_value_bounded_witness :
    -(7/2 : ℚ) ≤ -1 ∧ (-1 : ℚ) ≤ 7/2 := by
  have hpcol : pivotCol [⟨1, 3, 1, some 0, none⟩, ⟨2, 3, 1, some 2, none⟩] 3
      (fun r => r.leng) = [some 0, some 2] := by
    simp only [pivotCol, pivotKeys, pivotCell, List.map_cons, List.map_nil]
    norm_num [List.dedup_cons_of_not_mem, List.filter_cons, List.filter_nil,
      List.filterMap_cons, List.filterMap_nil, optMean, sMean]
    simp
  have hcol : normalizeCol 1 [some 0, some 2] = [some (-1), some 1] := by
    simp only [normalizeCol, standardizeCol, clipCol, presentVals]
    simp only [List.filterMap_cons, List.filterMap_nil, id_eq]
    norm_num [sMean, clip35]
  refine c2_normalized_value_bounded [1]
    [⟨1, 3, 1, some 0, none⟩, ⟨2, 3, 1, some 2, none⟩]
    (normalizeCol 1 (pivotCol [⟨1, 3, 1, some 0, none⟩, ⟨2, 3, 1, some 2, none⟩] 3
      (fun r => r.leng))) ?_ (some (-1)) ?_ (-1) rfl
  · simp [normalizedPivotTable, pivotMeasureCols]
  · rw [hpcol, hcol]
    simp

/-!
## C5: standardization law (mean 0, variance 1, then clipped bounds)
-/

/-- C5: on any column whose present values have a nonzero standard
deviation `s` (and at least two of them), the standardized values have
mean exactly 0 and sample variance exactly 1, and after clipping every
present value lies in `[-3.5, 3.5]`. -/
theorem c5_standardization_law (col : Col) (s : ℚ)
    (h2 : 2 ≤ (presentVals col).length) (hs : s ≠ 0)
    (hstd : isStdOf s (presentVals col)) :
    sMean (presentVals (standardizeCol s col)) = 0 ∧
    sampleVar (presentVals (standardizeCol s col)) = 1 ∧
    ∀ cell ∈ normalizeCol s col, ∀ v, cell = some v → -(7/2) ≤ v ∧ v ≤ 7/2 := by
  have hne : presentVals col ≠ [] := by
    intro h; rw [h] at h2; simp at h2
  have hguard : ¬ ((presentVals col).length ≤ 1 ∨ s = 0) := by
    rintro (h | h)
    · omega
    · exact hs h
  have hstd' : standardizeCol s col
      = col.map (Option.map (fun x => (x - sMean (presentVals col)) / s)) := by
    unfold standardizeCol
    rw [if_neg hguard]
  refine ⟨?_, ?_, fun cell hcell v hv => normalizeCol_mem_bounded hcell hv⟩
  · rw [hstd', presentVals_map]
    exact sMean_standardized _ _ hne
  · rw [hstd', presentVals_map]
    exact sampleVar_standardized _ _ h2 hs hstd.2

/-- Witness for C5: the column `[0, 2, 4]` has sample variance 4 and
standard deviation 2. -/
theorem c5_standardization_law_witness :
    sMean (presentVals (standardizeCol 2 [some 0, some 2, some 4])) = 0 ∧
    sampleVar (presentVals (standardizeCol 2 [some 0, some 2, some 4])) = 1 ∧
    ∀ cell ∈ normalizeCol 2 [some 0, some 2, some 4],
      ∀ v, cell = some v → -(7/2) ≤ v ∧ v ≤ 7/2 :=
  c5_standardization_law [some 0, some 2, some 4] 2 (by simp [presentVals])
    (by norm_num)
    ⟨by norm_num,
     by norm_num [sampleVar, sMean, presentVals, List.filterMap_cons, List.filterMap_nil]⟩

/-!
## C3: zero-variance populations are divided anyway, producing NaN
-/

/-- C3 counterexample: the column `[5, 5, 5]` has standard deviation 0;
the source still executes `(col - mean) / std` and the clipping lambda,
so every present value becomes `0/0 = NaN` (`none`).  The subject is
not excluded (its column is overwritten, not preserved), the `NaN`
results propagate silently into the normalized output, and no
diagnostic is recorded anywhere — the pipeline has no diagnostic
output at all. -/
theorem c3_counterexample :
    sampleVar (presentVals [some (5 : ℚ), some 5, some 5]) = 0 ∧
    normalizeCol 0 [some (5 : ℚ), some 5, some 5] = [none, none, none] ∧
    ([none, none, none] : Col) ≠ [some (5 : ℚ), some 5, some 5] := by
  refine ⟨by norm_num [sampleVar, sMean, presentVals, List.filterMap_cons, List.filterMap_nil],
    by simp [normalizeCol, standardizeCol, clipCol, presentVals],
    by decide⟩

/-- C3 amended: whenever the population standard deviation is zero (or
fewer than two values are present, where pandas `std` is already
`NaN`), the normalization turns every cell of the column — present
values included — into `NaN`; nothing is skipped and no diagnostic
exists. -/
theorem c3_degenerate_variance_nan (col : Col) (s : ℚ)
    (hs : s = 0 ∨ (presentVals col).length ≤ 1) :
    normalizeCol s col = col.map (fun _ => none) := by
  unfold normalizeCol standardizeCol clipCol
  rw [if_pos (Or.symm hs)]
  simp [List.map_map]

/-- Witness for C3's amended statement. -/
theorem c3_degenerate_variance_nan_witness :
    normalizeCol 0 [some (5 : ℚ), some 5] = [none, none] :=
  c3_degenerate_variance_nan [some (5 : ℚ), some 5] 0 (Or.inl rfl)

/-!
## C1: insufficient data yields hard-coded defaults, not "unavailable"
-/

/-- C1 counterexample: on an empty student frame — every subgroup
absent — the ERR indicator does not return any marked-unavailable
result: it returns the hard-coded default value 0.88 with the default
status classification `'yellow'` and the flag `'calculated': True`
(`app.py` line 3160 renders this flag as `'Calculado'`, i.e. the value
presents as a real computation). -/
theorem c1_counterexample :
    (errKpi true true true true []).current = 88/100 ∧
    (errKpi true true true true []).status = "yellow" ∧
    (errKpi true true true true []).calculated = true ∧
    (errKpi true true true true []).status ≠ "unavailable" := by
  have h : errKpi true true true true [] = ⟨88/100, 95/100, ">", "yellow", true⟩ := by
    simp [errKpi]
  rw [h]
  exact ⟨rfl, rfl, rfl, by decide⟩

/-- C1 amended: for each of the six KPI blocks, whenever any of its
failure triggers holds — the record-count floor unmet, a required
column absent, a subgroup at or below its minimum count, or a
degenerate denominator guard failing — the indicator keeps its
hard-coded default value and default status.  The returned entry
always carries a numeric current value, a status classification and
`'calculated': True`; no unavailable marking exists in the result
shape. -/
theorem c1_kpi_default_fallback :
    (∀ (r2 : ℚ) (hg hm hl hs ha : Bool) (rows : List Student),
      (rows.length ≤ 100 ∨ (hg = false ∧ hm = false ∧ hl = false)
        ∨ hs = false ∨ ha = false
        ∨ (ealgClean hg hm hl rows).length ≤ 50) →
      ealgKpi r2 hg hm hl hs ha rows = ⟨78/100, 85/100, ">", "red", true⟩) ∧
    (∀ (ps : ℚ) (ha hi hg hm : Bool) (rows : List Student),
      (rows.length ≤ 100 ∨ ha = false ∨ (hi = false ∧ hg = false ∧ hm = false)
        ∨ (rucdiUrban hi hg hm rows).length ≤ 10
        ∨ (rucdiRural hi hg hm rows).length ≤ 10
        ∨ ps ≤ 0) →
      rucdiKpi ps ha hi hg hm rows = ⟨62/100, 30/100, "<", "red", true⟩) ∧
    (∀ (he hn hg hm : Bool) (rows : List Student),
      (rows.length ≤ 100 ∨ he = false ∨ (hn = false ∧ hg = false ∧ hm = false)
        ∨ (errMinority hn hg hm rows).length ≤ 10
        ∨ (errMajority hn hg hm rows).length ≤ 10
        ∨ sMean ((errMajority hn hg hm rows).map Prod.snd) ≤ 0) →
      errKpi he hn hg hm rows = ⟨88/100, 95/100, ">", "yellow", true⟩) ∧
    (∀ (beta : ℚ) (hg hl hm : Bool) (rows : List Student),
      (rows.length ≤ 100 ∨ hg = false ∨ hl = false ∨ hm = false
        ∨ (gnctpClean rows).length ≤ 50) →
      gnctpKpi beta hg hl hm rows = ⟨-21/10, 0, "≈", "yellow", true⟩) ∧
    (∀ (hsc : Bool) (scores : List (Option ℚ)),
      (scores.length ≤ 10 ∨ hsc = false ∨ (scores.filterMap id).length ≤ 10) →
      mefKpi hsc scores = ⟨11, 15, ">", "yellow", true⟩) ∧
    (∀ (hsc : Bool) (rows : List (List (Option ℚ))) (stdScores : List (Option ℚ)),
      (rows.length ≤ 50 ∨ hsc = false ∨ (svsClean rows stdScores).length ≤ 10) →
      svsKpi hsc rows stdScores = ⟨71/100, 80/100, ">", "red", true⟩) := by
  refine ⟨?_, ?_, ?_, ?_, ?_, ?_⟩
  · intro r2 hg hm hl hs ha rows htrig
    simp only [ealgKpi]
    split_ifs with h1 h2
    · exfalso
      obtain ⟨hlen, hflags, hstrato, harea⟩ := h1
      rcases htrig with h | ⟨ha1, hb1, hc1⟩ | h | h | h
      · omega
      · rw [ha1, hb1, hc1] at hflags
        simp at hflags
      · rw [h] at hstrato
        simp at hstrato
      · rw [h] at harea
        simp at harea
      · omega
    · rfl
    · rfl
  · intro ps ha hi hg hm rows htrig
    simp only [rucdiKpi]
    split_ifs with h1 h2 h3
    · exfalso
      obtain ⟨hlen, harea, hflags⟩ := h1
      obtain ⟨hu, hr⟩ := h2
      rcases htrig with h | h | ⟨ha1, hb1, hc1⟩ | h | h | h
      · omega
      · rw [h] at harea
        simp at harea
      · rw [ha1, hb1, hc1] at hflags
        simp at hflags
      · omega
      · omega
      · linarith
    · rfl
    · rfl
    · rfl
  · intro he hn hg hm rows htrig
    simp only [errKpi]
    split_ifs with h1 h2 h3
    · exfalso
      obtain ⟨hlen, hhe, hflags⟩ := h1
      obtain ⟨hmin, hmaj⟩ := h2
      rcases htrig with h | h | ⟨ha1, hb1, hc1⟩ | h | h | h
      · omega
      · rw [h] at hhe
        simp at hhe
      · rw [ha1, hb1, hc1] at hflags
        simp at hflags
      · omega
      · omega
      · linarith
    · rfl
    · rfl
    · rfl
  · intro beta hg hl hm rows htrig
    simp only [gnctpKpi]
    split_ifs with h1 h2
    · exfalso
      obtain ⟨hlen, hgen, hlect, hmate⟩ := h1
      rcases htrig with h | h | h | h | h
      · omega
      · rw [h] at hgen
        simp at hgen
      · rw [h] at hlect
        simp at hlect
      · rw [h] at hmate
        simp at hmate
      · omega
    · rfl
    · rfl
  · intro hsc scores htrig
    simp only [mefKpi]
    split_ifs with h1 h2
    · exfalso
      obtain ⟨hlen, hhs⟩ := h1
      rcases htrig with h | h | h
      · omega
      · rw [h] at hhs
        simp at hhs
      · omega
    · rfl
    · rfl
  · intro hsc rows stdScores htrig
    simp only [svsKpi]
    split_ifs with h1 h2
    · exfalso
      obtain ⟨hlen, hhs⟩ := h1
      rcases htrig with h | h | h
      · omega
      · rw [h] at hhs
        simp at hhs
      · omega
    · rfl
    · rfl

/-- Witness for C1's amended statement, one concrete trigger per block:
the record-count floor on an empty frame for EALG, RUCDI, GNCTP and
SVS, and an absent required column for ERR and MEF. -/
theorem c1_kpi_default_fallback_witness :
    ealgKpi 0 true true true true true [] = ⟨78/100, 85/100, ">", "red", true⟩ ∧
    rucdiKpi 1 true true true true [] = ⟨62/100, 30/100, "<", "red", true⟩ ∧
    errKpi false true true true [] = ⟨88/100, 95/100, ">", "yellow", true⟩ ∧
    gnctpKpi 0 true true true [] = ⟨-21/10, 0, "≈", "yellow", true⟩ ∧
    mefKpi false [] = ⟨11, 15, ">", "yellow", true⟩ ∧
    svsKpi true [] [] = ⟨71/100, 80/100, ">", "red", true⟩ :=
  ⟨c1_kpi_default_fallback.1 0 true true true true true [] (Or.inl (by simp)),
   c1_kpi_default_fallback.2.1 1 true true true true [] (Or.inl (by simp)),
   c1_kpi_default_fallback.2.2.1 false true true true [] (Or.inr (Or.inl rfl)),
   c1_kpi_default_fallback.2.2.2.1 0 true true true [] (Or.inl (by simp)),
   c1_kpi_default_fallback.2.2.2.2.1 false [] (Or.inr (Or.inl rfl)),
   c1_kpi_default_fallback.2.2.2.2.2 true [] [] (Or.inl (by simp))⟩

/-!
## C8: MEF counts `>=` the 90th percentile, not strictly above it
-/

/-- C8 counterexample: with eleven municipalities all scoring 7, the
90th percentile is 7; the code's inclusive comparison
`(score >= p90).sum()` counts all eleven, so MEF = 100.0%, while the
claimed strict "share exceeding the 90th percentile" is 0%. -/
theorem c8_counterexample :
    (mefKpi true [some 7, some 7, some 7, some 7, some 7, some 7, some 7,
      some 7, some 7, some 7, some 7]).current = 100 ∧
    mefStrictShareSpec [some 7, some 7, some 7, some 7, some 7, some 7, some 7,
      some 7, some 7, some 7, some 7] = 0 ∧
    (100 : ℚ) ≠ 0 := by
  have hsort : sortAscBy id [7,7,7,7,7,7,7,7,7,7,7] = ([7,7,7,7,7,7,7,7,7,7,7] : List ℚ) := by
    norm_num [sortAscBy, insertAscBy]
  have hq : pandasQuantile90 [(7:ℚ),7,7,7,7,7,7,7,7,7,7] = 7 := by
    simp only [pandasQuantile90, hsort]
    norm_num [show Int.toNat 9 = 9 from rfl, List.getD_cons_succ, List.getD_cons_zero]
  have hfm : (List.filterMap id [some (7:ℚ), some 7, some 7, some 7, some 7, some 7,
      some 7, some 7, some 7, some 7, some 7]) = [7,7,7,7,7,7,7,7,7,7,7] := by simp
  refine ⟨?_, ?_, by norm_num⟩
  · simp only [mefKpi, hfm]
    norm_num [hq, roundTo, round_eq, List.filter_cons, List.filter_nil, mefStatus]
  · simp only [mefStrictShareSpec, hfm]
    norm_num [hq, List.filter_cons, List.filter_nil]

/-- C8 amended: under the code's guards (more than 10 municipality
rows, a score column, more than 10 non-missing scores), MEF equals the
rounded percentage of municipalities whose score is **greater than or
equal to** the linear-interpolation 90th-percentile of the non-missing
scores, with the thresholded status attached and `'calculated':
True`. -/
theorem c8_mef_inclusive_share (hs : Bool) (scores : List (Option ℚ))
    (h1 : 10 < scores.length) (hhs : hs = true)
    (h2 : 10 < (scores.filterMap id).length) :
    mefKpi hs scores =
      ⟨roundTo 1 ((((((scores.filterMap id).filter
          (fun x => decide (pandasQuantile90 (scores.filterMap id) ≤ x))).length : ℚ))
          / ((scores.filterMap id).length : ℚ)) * 100),
       15, ">",
       mefStatus (roundTo 1 ((((((scores.filterMap id).filter
          (fun x => decide (pandasQuantile90 (scores.filterMap id) ≤ x))).length : ℚ))
          / ((scores.filterMap id).length : ℚ)) * 100)),
       true⟩ := by
  simp only [mefKpi, if_pos (And.intro h1 hhs), if_pos h2]

/-- Witness for C8's amended statement on the same eleven-sevens
table. -/
theorem c8_mef_inclusive_share_witness :
    (mefKpi true [some 7, some 7, some 7, some 7, some 7, some 7, some 7,
      some 7, some 7, some 7, some 7]).status = "green" := by
  have hsort : sortAscBy id [7,7,7,7,7,7,7,7,7,7,7] = ([7,7,7,7,7,7,7,7,7,7,7] : List ℚ) := by
    norm_num [sortAscBy, insertAscBy]
  have hq : pandasQuantile90 [(7:ℚ),7,7,7,7,7,7,7,7,7,7] = 7 := by
    simp only [pandasQuantile90, hsort]
    norm_num [show Int.toNat 9 = 9 from rfl, List.getD_cons_succ, List.getD_cons_zero]
  have hfm : (List.filterMap id [some (7:ℚ), some 7, some 7, some 7, some 7, some 7,
      some 7, some 7, some 7, some 7, some 7]) = [7,7,7,7,7,7,7,7,7,7,7] := by simp
  rw [c8_mef_inclusive_share true _ (by simp) rfl (by simp)]
  simp only [hfm]
  norm_num [hq, roundTo, round_eq, List.filter_cons, List.filter_nil, mefStatus]

/-!
## C9: ranking ties are not broken by any entity ordering
-/

lemma mem_insertAscBy {k : α → ℚ} {x y : α} :
    ∀ {l : List α}, y ∈ insertAscBy k x l ↔ y = x ∨ y ∈ l := by
  intro l
  induction l with
  | nil => simp [insertAscBy]
  | cons z zs ih =>
    simp only [insertAscBy]
    split
    · simp [List.mem_cons]
    · simp only [List.mem_cons, ih]
      tauto

lemma mem_sortAscBy {k : α → ℚ} {y : α} :
    ∀ {l : List α}, y ∈ sortAscBy k l ↔ y ∈ l := by
  intro l
  induction l with
  | nil => simp [sortAscBy]
  | cons x xs ih =>
    simp only [sortAscBy, mem_insertAscBy, ih, List.mem_cons, eq_comm]

lemma pairwise_insertAscBy {k : α → ℚ} (x : α) :
    ∀ {l : List α}, l.Pairwise (fun a b => k a ≤ k b) →
      (insertAscBy k x l).Pairwise (fun a b => k a ≤ k b) := by
  intro l
  induction l with
  | nil => intro _; simp [insertAscBy]
  | cons z zs ih =>
    intro h
    obtain ⟨hz, hzs⟩ := List.pairwise_cons.mp h
    simp only [insertAscBy]
    split
    · rename_i hle
      refine List.Pairwise.cons ?_ h
      intro a ha
      rcases List.mem_cons.mp ha with rfl | ha
      · exact hle
      · exact le_trans hle (hz a ha)
    · rename_i hnle
      refine List.Pairwise.cons ?_ (ih hzs)
      intro a ha
      rcases mem_insertAscBy.mp ha with rfl | ha
      · exact le_of_not_le hnle
      · exact hz a ha

lemma pairwise_sortAscBy (k : α → ℚ) :
    ∀ (l : List α), (sortAscBy k l).Pairwise (fun a b => k a ≤ k b) := by
  intro l
  induction l with
  | nil => simp [sortAscBy]
  | cons x xs ih => exact pairwise_insertAscBy x ih

/-- C9 counterexample: two entities `A` and `B` with the same score.
Presented as `[A, B]` the ranking returns `[B, A]`; presented as
`[B, A]` it returns `[A, B]`.  The relative order of the same two tied
entities depends on their positions in the input, so no secondary
ordering of entities (by id or anything else) governs tie-breaks — the
code sorts by the score column alone. -/
theorem c9_counterexample :
    rankTable 10 [⟨"A", some 1⟩, ⟨"B", some 1⟩] = [⟨"B", some 1⟩, ⟨"A", some 1⟩] ∧
    rankTable 10 [⟨"B", some 1⟩, ⟨"A", some 1⟩] = [⟨"A", some 1⟩, ⟨"B", some 1⟩] ∧
    (⟨"A", some 1⟩ : RankRow) ≠ ⟨"B", some 1⟩ := by
  refine ⟨?_, ?_, by decide⟩ <;>
    simp [rankTable, sortValuesDesc, sortAscBy, insertAscBy, List.filter_cons]

/-- C9 amended: the ranking is a deterministic function of the input
list (so two calls on the identical input do return the identical
list), and its output is always sorted descending by the score column;
but ties carry no entity-based secondary ordering — tied rows come out
in reverse of their input order. -/
theorem c9_rank_table_sorted (limit : ℕ) (rows : List RankRow) :
    (rankTable limit rows).Pairwise
      (fun a b => b.score.getD 0 ≤ a.score.getD 0) := by
  have hsorted : (sortValuesDesc (fun r => r.score.getD 0)
      (rows.filter (fun r => r.score.isSome))).Pairwise
      (fun a b => b.score.getD 0 ≤ a.score.getD 0) := by
    unfold sortValuesDesc
    exact List.pairwise_reverse.mpr (pairwise_sortAscBy _ _)
  simp only [rankTable]
  split
  · exact hsorted.sublist (List.take_sublist _ _)
  · exact hsorted

/-!
## C7: residual = actual − predicted, and both sort keys agree
-/

lemma insertAscBy_congr {k1 k2 : α → ℚ} {x : α} (hx : k1 x = k2 x) :
    ∀ {l : List α}, (∀ y ∈ l, k1 y = k2 y) →
      insertAscBy k1 x l = insertAscBy k2 x l := by
  intro l
  induction l with
  | nil => intro _; rfl
  | cons z zs ih =>
    intro h
    have hz := h z (List.mem_cons_self _ _)
    simp only [insertAscBy, hx, hz]
    split
    · rfl
    · rw [ih (fun y hy => h y (List.mem_cons_of_mem _ hy))]

lemma sortAscBy_congr {k1 k2 : α → ℚ} :
    ∀ {l : List α}, (∀ y ∈ l, k1 y = k2 y) →
      sortAscBy k1 l = sortAscBy k2 l := by
  intro l
  induction l with
  | nil => intro _; rfl
  | cons x xs ih =>
    intro h
    have htail := fun y hy => h y (List.mem_cons_of_mem _ hy)
    simp only [sortAscBy]
    rw [ih htail]
    exact insertAscBy_congr (h x (List.mem_cons_self _ _))
      (fun y hy => htail y (mem_sortAscBy.mp hy))

lemma sum_residual_sub :
    ∀ (g : List ResidRow), (∀ r ∈ g, r.residual = r.actual - r.predicted) →
      (g.map (fun r => r.residual)).sum
        = (g.map (fun r => r.actual)).sum - (g.map (fun r => r.predicted)).sum := by
  intro g
  induction g with
  | nil => intro _; simp
  | cons a t ih =>
    intro h
    simp only [List.map_cons, List.sum_cons]
    rw [h a (List.mem_cons_self _ _), ih (fun r hr => h r (List.mem_cons_of_mem _ hr))]
    ring

lemma sMean_residual_sub (g : List ResidRow)
    (h : ∀ r ∈ g, r.residual = r.actual - r.predicted) :
    sMean (g.map (fun r => r.residual))
      = sMean (g.map (fun r => r.actual)) - sMean (g.map (fun r => r.predicted)) := by
  simp only [sMean, List.length_map]
  rw [sum_residual_sub g h, sub_div]

/-- C7: every row built by
`df_model['residual'] = df_model[target_col] - df_model['predicted']`
satisfies `residual = actual − predicted` exactly; sorting the rows
descending by the residual column gives the same list as sorting
descending by `actual − predicted`; and in the student-level branch's
per-school aggregation, each school's mean residual equals its mean
actual minus its mean predicted. -/
theorem c7_residual_sign_law (prows : List PredRow) :
    (∀ r ∈ mkResiduals prows, r.residual = r.actual - r.predicted) ∧
    sortValuesDesc (fun r => r.residual) (mkResiduals prows)
      = sortValuesDesc (fun r => r.actual - r.predicted) (mkResiduals prows) ∧
    ∀ e ∈ schoolResiduals (mkResiduals prows), e.2.1 = e.2.2.1 - e.2.2.2 := by
  have hpt : ∀ r ∈ mkResiduals prows, r.residual = r.actual - r.predicted := by
    intro r hr
    obtain ⟨p, -, rfl⟩ := List.mem_map.mp hr
    rfl
  refine ⟨hpt, ?_, ?_⟩
  · unfold sortValuesDesc
    rw [sortAscBy_congr hpt]
  · intro e he
    obtain ⟨knm, -, rfl⟩ := List.mem_map.mp he
    exact sMean_residual_sub _ (fun r hr =>
      hpt r (List.mem_of_mem_filter hr))

/-- Witness for C7 on two concrete fitted rows. -/
theorem c7_residual_sign_law_witness :
    sortValuesDesc (fun r => r.residual) (mkResiduals [⟨"a", 3, 1⟩, ⟨"b", 5, 9⟩])
      = sortValuesDesc (fun r => r.actual - r.predicted)
          (mkResiduals [⟨"a", 3, 1⟩, ⟨"b", 5, 9⟩]) :=
  (c7_residual_sign_law [⟨"a", 3, 1⟩, ⟨"b", 5, 9⟩]).2.1

/-!
## C4: zero-count subjects still materialize a (count 0, NaN) entry
-/

lemma optMean_eq_none_iff (xs : List ℚ) : optMean xs = none ↔ xs = [] := by
  unfold optMean
  split <;> simp_all

lemma optMean_of_length_pos (xs : List ℚ) (h : 0 < xs.length) :
    optMean xs = some (xs.sum / (xs.length : ℚ)) := by
  unfold optMean
  rw [if_neg (List.length_pos.mp h)]
  rfl

/-- The values of one subject contributed by one group: the non-missing
scores of the records whose (fully present) key tuple equals `k`. -/
def groupScores (f : SRecord → Option ℚ) (rows : List SRecord) (k : List String) : List ℚ :=
  (rows.filter (fun r => decide (effKey r = some k))).filterMap f

/-- C4 counterexample: a school with one record that has a `lectura`
score but no `mate` score.  The aggregate output *does* emit an
`AggregateRow(["A"], mate)` — with count 0 and a missing (NaN) mean —
rather than omitting it: the wide group row materializes every subject
column, so absence is represented by a zero-count, NaN-mean entry, not
by a missing row. -/
theorem c4_counterexample :
    ∃ e ∈ emittedEntries (aggregateBySchool [⟨[some "A"], some 10, none⟩]),
      e.2.1 = "mate" ∧ e.2.2.1 = 0 ∧ e.2.2.2 = none := by
  have hagg : aggregateBySchool [⟨[some "A"], some 10, none⟩]
      = [⟨["A"], 1, some 10, none, 0, none, none⟩] := by
    have hek : effKey ⟨[some "A"], some 10, none⟩ = some ["A"] := rfl
    simp only [aggregateBySchool]
    norm_num [hek, List.filterMap_cons, List.filterMap_nil, List.filter_cons,
      List.filter_nil, List.dedup_cons_of_not_mem, optMean, optVar, sMean]
    simp
  rw [hagg]
  refine ⟨(["A"], "mate", 0, none), ?_, rfl, rfl, rfl⟩
  simp [emittedEntries]

/-- C4 amended: a group appears in the aggregate output exactly when it
has at least one record with all grouping keys present; the emitted
wide row materializes every subject with the count of exactly the
group's non-missing values and their arithmetic mean (missing when the
count is 0 — a zero-count, NaN-mean entry rather than an absent
row). -/
theorem c4_aggregate_group_semantics (rows : List SRecord) (r : SchoolAgg)
    (hr : r ∈ aggregateBySchool rows) :
    (∃ rec ∈ rows, effKey rec = some r.key) ∧
    r.lecturaCount = (groupScores (fun x => x.lectura) rows r.key).length ∧
    r.lecturaMean = optMean (groupScores (fun x => x.lectura) rows r.key) ∧
    (r.lecturaCount = 0 ↔ r.lecturaMean = none) ∧
    (0 < r.lecturaCount → r.lecturaMean
      = some ((groupScores (fun x => x.lectura) rows r.key).sum / (r.lecturaCount : ℚ))) ∧
    r.mateCount = (groupScores (fun x => x.mate) rows r.key).length ∧
    r.mateMean = optMean (groupScores (fun x => x.mate) rows r.key) ∧
    (r.mateCount = 0 ↔ r.mateMean = none) := by
  obtain ⟨k, hk, rfl⟩ := List.mem_map.mp hr
  dsimp only [groupScores]
  refine ⟨?_, rfl, rfl, ?_, ?_, rfl, rfl, ?_⟩
  · exact List.mem_filterMap.mp (List.mem_dedup.mp hk)
  · exact List.length_eq_zero.trans (optMean_eq_none_iff _).symm
  · intro hpos
    rw [optMean_of_length_pos _ hpos]
  · exact List.length_eq_zero.trans (optMean_eq_none_iff _).symm

/-- Witness for C4's amended statement: the singleton group is backed
by its one record. -/
theorem c4_aggregate_group_semantics_witness :
    ∃ rec ∈ [(⟨[some "A"], some 10, none⟩ : SRecord)], effKey rec = some ["A"] := by
  have hagg : aggregateBySchool [⟨[some "A"], some 10, none⟩]
      = [⟨["A"], 1, some 10, none, 0, none, none⟩] := by
    have hek : effKey ⟨[some "A"], some 10, none⟩ = some ["A"] := rfl
    simp only [aggregateBySchool]
    norm_num [hek, List.filterMap_cons, List.filterMap_nil, List.filter_cons,
      List.filter_nil, List.dedup_cons_of_not_mem, optMean, optVar, sMean]
    simp
  exact (c4_aggregate_group_semantics [⟨[some "A"], some 10, none⟩]
    ⟨["A"], 1, some 10, none, 0, none, none⟩
    (by rw [hagg]; exact List.mem_singleton.mpr rfl)).1

/-!
## C6: sentinel conversion — done by the grade pipelines, absent in app.py
-/

/-- C6 counterexample: `app.py` (the cited 2024 Saber-11 pipeline:
`load_saber11_2024_data` + `aggregate_by_school`) performs no sentinel
conversion at all.  A record with score 0 — the grade-11
exam-not-attempted sentinel of the very CSV files the loader also
falls back to — contributes to the group like a valid score: the count
becomes 2 (not 1) and the mean 5 (not 10). -/
theorem c6_counterexample :
    aggregateBySchool [⟨[some "A"], some 0, none⟩, ⟨[some "A"], some 10, none⟩]
      = [⟨["A"], 2, some 5, some 50, 0, none, none⟩] ∧
    (2 : ℕ) ≠ 1 ∧ (5 : ℚ) ≠ 10 := by
  refine ⟨?_, by norm_num, by norm_num⟩
  have hek : effKey ⟨[some "A"], some 0, none⟩ = some ["A"] := rfl
  have hek2 : effKey ⟨[some "A"], some 10, none⟩ = some ["A"] := rfl
  simp only [aggregateBySchool]
  norm_num [hek, hek2, List.filterMap_cons, List.filterMap_nil, List.filter_cons,
    List.filter_nil, List.dedup_cons_of_not_mem, List.dedup_cons_of_mem,
    optMean, optVar, sMean, sampleVar]
  simp

/-- C6 amended, the part the grade pipelines do implement: in
`Saber11.py` (sentinel 0) and `Saber359.py` (sentinel 100), a record
whose subject score equals the sentinel is aggregated exactly as if
that score were missing — the `replace` runs before `groupby`, so the
sentinel never enters any group mean. -/
theorem c6_sentinel_behaves_as_missing :
    (∀ (p c m : Option ℚ) (rows : List S11Row),
      groupAgg11 (⟨p, c, some 0, m⟩ :: rows) = groupAgg11 (⟨p, c, none, m⟩ :: rows)) ∧
    (∀ (p c l : Option ℚ) (rows : List S11Row),
      groupAgg11 (⟨p, c, l, some 0⟩ :: rows) = groupAgg11 (⟨p, c, l, none⟩ :: rows)) ∧
    (∀ (p c m g : Option ℚ) (rows : List S359Row),
      groupAgg359 (⟨p, c, some 100, m, g⟩ :: rows)
        = groupAgg359 (⟨p, c, none, m, g⟩ :: rows)) ∧
    (∀ (p c l g : Option ℚ) (rows : List S359Row),
      groupAgg359 (⟨p, c, l, some 100, g⟩ :: rows)
        = groupAgg359 (⟨p, c, l, none, g⟩ :: rows)) := by
  refine ⟨fun p c m rows => ?_, fun p c l rows => ?_,
          fun p c m g rows => ?_, fun p c l g rows => ?_⟩
  · have h : replaceAll0 ⟨p, c, some 0, m⟩ = replaceAll0 ⟨p, c, none, m⟩ := by
      simp [replaceAll0, replaceVal]
    simp only [groupAgg11, List.map_cons, h]
  · have h : replaceAll0 ⟨p, c, l, some 0⟩ = replaceAll0 ⟨p, c, l, none⟩ := by
      simp [replaceAll0, replaceVal]
    simp only [groupAgg11, List.map_cons, h]
  · have h : replaceAll100 ⟨p, c, some 100, m, g⟩ = replaceAll100 ⟨p, c, none, m, g⟩ := by
      simp [replaceAll100, replaceVal]
    simp only [groupAgg359, List.map_cons, h]
  · have h : replaceAll100 ⟨p, c, l, some 100, g⟩ = replaceAll100 ⟨p, c, l, none, g⟩ := by
      simp [replaceAll100, replaceVal]
    simp only [groupAgg359, List.map_cons, h]

/-!
## C10: grade-11 entries are 5 × the group mean; 3/5/9 entries unscaled
-/

lemma filter_eq_of_nodup {α : Type} [DecidableEq α] (c : α) :
    ∀ (l : List α), l.Nodup →
      l.filter (fun x => decide (x = c)) = if c ∈ l then [c] else [] := by
  intro l
  induction l with
  | nil => intro _; simp
  | cons a t ih =>
    intro h
    obtain ⟨ha, ht⟩ := List.nodup_cons.mp h
    rw [List.filter_cons, ih ht]
    by_cases hac : a = c
    · subst hac
      simp [ha]
    · simp [hac, List.mem_cons, Ne.symm hac]

lemma optMean_filterMap_singleton (f : AggRow → Option ℚ) (r : AggRow) :
    optMean (List.filterMap f [r]) = f r := by
  cases h : f r <;>
    simp [List.filterMap_cons, h, optMean, sMean]

/-- Every row of `groupAgg359 rows` carries a grade that some
(replaced) input row actually has. -/
lemma groupAgg359_grado_mem (a : AggRow) (rows : List S359Row)
    (ha : a ∈ groupAgg359 rows) :
    ∃ r ∈ rows, (replaceAll100 r).grado = some a.grado := by
  simp only [groupAgg359] at ha
  obtain ⟨kg, hkg, rfl⟩ := List.mem_map.mp ha
  obtain ⟨r', hr', hm⟩ := List.mem_filterMap.mp (List.mem_dedup.mp hkg)
  obtain ⟨r0, hr0, rfl⟩ := List.mem_map.mp hr'
  refine ⟨r0, hr0, ?_⟩
  cases hc : (replaceAll100 r0).cole <;> cases hg : (replaceAll100 r0).grado <;>
    rw [hc, hg] at hm <;> simp at hm
  obtain ⟨-, rfl⟩ := hm
  rfl

/-- No row of the grade-3/5/9 aggregate matches grade 11 when no input
row has (replaced) grade 11. -/
lemma filter_groupAgg359_grade11 (rows359 : List S359Row) (c : ℚ)
    (h359 : ∀ r ∈ rows359, (replaceAll100 r).grado ≠ some 11) :
    (groupAgg359 rows359).filter (fun r => decide (r.key = c ∧ r.grado = 11)) = [] := by
  rw [List.filter_eq_nil_iff]
  intro a ha
  obtain ⟨r0, hr0, hgr⟩ := groupAgg359_grado_mem a rows359 ha
  simp only [decide_eq_true_eq, not_and]
  intro _ h11
  exact h359 r0 hr0 (by rw [hgr, h11])

/-- No row of the grade-11 aggregate matches a grade other than 11. -/
lemma filter_groupAgg11_ne11 (rows11 : List S11Row) (c g : ℚ) (hg : g ≠ 11) :
    (groupAgg11 rows11).filter (fun r => decide (r.key = c ∧ r.grado = g)) = [] := by
  rw [List.filter_eq_nil_iff]
  intro a ha
  simp only [groupAgg11] at ha
  obtain ⟨k, -, rfl⟩ := List.mem_map.mp ha
  simp only [decide_eq_true_eq, not_and]
  intro _ hgr
  exact hg (by rw [← hgr]; rfl)

/-- Filtering the grade-11 aggregate for `(c, 11)` yields exactly the
row for school `c` when that school is a group key, else nothing. -/
lemma filter_groupAgg11_grade11 (rows11 : List S11Row) (c : ℚ) :
    (groupAgg11 rows11).filter (fun r => decide (r.key = c ∧ r.grado = 11))
      = if c ∈ agg11Keys (rows11.map replaceAll0)
        then [agg11Row (rows11.map replaceAll0) c] else [] := by
  simp only [groupAgg11]
  rw [List.filter_map]
  have hp : ∀ k ∈ agg11Keys (rows11.map replaceAll0),
      ((fun r => decide (r.key = c ∧ r.grado = 11)) ∘ agg11Row (rows11.map replaceAll0)) k
        = decide (k = c) := by
    intro k _
    show decide ((agg11Row (rows11.map replaceAll0) k).key = c
      ∧ (agg11Row (rows11.map replaceAll0) k).grado = 11) = decide (k = c)
    rw [decide_eq_decide]
    constructor
    · exact fun hkc => hkc.1
    · exact fun hkc => ⟨hkc, rfl⟩
  rw [List.filter_congr hp]
  simp only [agg11Keys]
  rw [filter_eq_of_nodup c _ (List.nodup_dedup _)]
  split <;> simp

/-- Filtering the grade-3/5/9 aggregate for `(c, g)` yields exactly the
row for pair `(c, g)` when it is a group key, else nothing. -/
lemma filter_groupAgg359_pair (rows359 : List S359Row) (c g : ℚ) :
    (groupAgg359 rows359).filter (fun r => decide (r.key = c ∧ r.grado = g))
      = if (c, g) ∈ agg359Keys (rows359.map replaceAll100)
        then [agg359Row (rows359.map replaceAll100) (c, g)] else [] := by
  simp only [groupAgg359]
  rw [List.filter_map]
  have hp : ∀ kg ∈ agg359Keys (rows359.map replaceAll100),
      ((fun r => decide (r.key = c ∧ r.grado = g)) ∘ agg359Row (rows359.map replaceAll100)) kg
        = decide (kg = (c, g)) := by
    intro kg _
    show decide ((agg359Row (rows359.map replaceAll100) kg).key = c
      ∧ (agg359Row (rows359.map replaceAll100) kg).grado = g) = decide (kg = (c, g))
    rw [decide_eq_decide]
    exact (@Prod.ext_iff ℚ ℚ kg (c, g)).symm
  rw [List.filter_congr hp]
  simp only [agg359Keys]
  rw [filter_eq_of_nodup _ _ (List.nodup_dedup _)]
  split <;> simp

/-- A school code outside the grade-11 key list has an empty group. -/
lemma agg11_group_nil (rows11 : List S11Row) (c : ℚ)
    (hc : c ∉ agg11Keys (rows11.map replaceAll0)) :
    (rows11.map replaceAll0).filter (fun r => decide (r.cole = some c)) = [] := by
  rw [List.filter_eq_nil_iff]
  intro r hr
  simp only [decide_eq_true_eq]
  intro hrc
  exact hc (List.mem_dedup.mpr (List.mem_filterMap.mpr ⟨r, hr, by rw [hrc]⟩))

/-- A (school code, grade) pair outside the grade-3/5/9 key list has an
empty group. -/
lemma agg359_group_nil (rows359 : List S359Row) (c g : ℚ)
    (hc : (c, g) ∉ agg359Keys (rows359.map replaceAll100)) :
    (rows359.map replaceAll100).filter
      (fun r => decide (r.cole = some c ∧ r.grado = some g)) = [] := by
  rw [List.filter_eq_nil_iff]
  intro r hr
  simp only [decide_eq_true_eq, not_and]
  intro hrc hrg
  refine hc (List.mem_dedup.mpr (List.mem_filterMap.mpr ⟨r, hr, ?_⟩))
  rw [hrc, hrg]

/-- The grade-11 cell of the combined pivot: the value carried by the
grade-11 aggregate row of school `c`, or `NaN` when school `c` is not a
grade-11 group. -/
lemma pivotCell_combined_grade11 (rows11 : List S11Row) (rows359 : List S359Row)
    (c : ℚ) (h359 : ∀ r ∈ rows359, (replaceAll100 r).grado ≠ some 11)
    (fA : AggRow → Option ℚ) :
    pivotCell (combinedFrames rows11 rows359) c 11 fA
      = if c ∈ agg11Keys (rows11.map replaceAll0)
        then fA (agg11Row (rows11.map replaceAll0) c) else none := by
  unfold pivotCell combinedFrames
  rw [List.filter_append, filter_groupAgg359_grade11 rows359 c h359,
    List.nil_append, filter_groupAgg11_grade11]
  split
  · rw [optMean_filterMap_singleton]
  · rfl

/-- A non-grade-11 cell of the combined pivot: the value carried by the
grade-3/5/9 aggregate row of pair `(c, g)`, or `NaN` when that pair is
not a group. -/
lemma pivotCell_combined_grade359 (rows11 : List S11Row) (rows359 : List S359Row)
    (c g : ℚ) (hg : g ≠ 11) (fA : AggRow → Option ℚ) :
    pivotCell (combinedFrames rows11 rows359) c g fA
      = if (c, g) ∈ agg359Keys (rows359.map replaceAll100)
        then fA (agg359Row (rows359.map replaceAll100) (c, g)) else none := by
  unfold pivotCell combinedFrames
  rw [List.filter_append, filter_groupAgg11_ne11 rows11 c g hg,
    List.append_nil, filter_groupAgg359_pair]
  split
  · rw [optMean_filterMap_singleton]
  · rfl

/-- C10: in the combined cross-grade table built by
`pd.concat` + `pivot_table`, the grade-11 `Lenguaje` and `Matemáticas`
cells of a school equal 5 × the arithmetic mean of the group's
non-missing (post-sentinel-replacement) per-student scores, while each
grade-3/5/9 cell equals the plain unscaled group mean — the ×5
rescaling happens after grouping and before the pivot (standardization
and clipping are applied later, to the pivoted columns). -/
theorem c10_grade11_rescaling (rows11 : List S11Row) (rows359 : List S359Row)
    (c : ℚ) (h359 : ∀ r ∈ rows359, (replaceAll100 r).grado ≠ some 11) :
    (pivotCell (combinedFrames rows11 rows359) c 11 (fun r => r.leng)
      = (optMean (((rows11.map replaceAll0).filter (fun r => decide (r.cole = some c))).filterMap
          (fun r => r.lectura))).map (fun m => m * 5)) ∧
    (pivotCell (combinedFrames rows11 rows359) c 11 (fun r => r.mate)
      = (optMean (((rows11.map replaceAll0).filter (fun r => decide (r.cole = some c))).filterMap
          (fun r => r.mate))).map (fun m => m * 5)) ∧
    ∀ g : ℚ, g ≠ 11 →
      (pivotCell (combinedFrames rows11 rows359) c g (fun r => r.leng)
        = optMean (((rows359.map replaceAll100).filter
            (fun r => decide (r.cole = some c ∧ r.grado = some g))).filterMap
            (fun r => r.leng))) ∧
      (pivotCell (combinedFrames rows11 rows359) c g (fun r => r.mate)
        = optMean (((rows359.map replaceAll100).filter
            (fun r => decide (r.cole = some c ∧ r.grado = some g))).filterMap
            (fun r => r.mate))) := by
  refine ⟨?_, ?_, fun g hg => ⟨?_, ?_⟩⟩
  · rw [pivotCell_combined_grade11 rows11 rows359 c h359]
    split
    · rfl
    · rename_i hc
      rw [agg11_group_nil rows11 c hc]
      rfl
  · rw [pivotCell_combined_grade11 rows11 rows359 c h359]
    split
    · rfl
    · rename_i hc
      rw [agg11_group_nil rows11 c hc]
      rfl
  · rw [pivotCell_combined_grade359 rows11 rows359 c g hg]
    split
    · rfl
    · rename_i hc
      rw [agg359_group_nil rows359 c g hc]
      rfl
  · rw [pivotCell_combined_grade359 rows11 rows359 c g hg]
    split
    · rfl
    · rename_i hc
      rw [agg359_group_nil rows359 c g hc]
      rfl

/-- Witness for C10: one grade-11 record with a `lectura` score of 40
gives a combined-table `Lenguaje Grado 11` cell of `5 × 40 = 200`. -/
theorem c10_grade11_rescaling_witness :
    pivotCell (combinedFrames [⟨some 20171, some 1, some 40, none⟩] []) 1 11
      (fun r => r.leng) = some 200 := by
  rw [(c10_grade11_rescaling [⟨some 20171, some 1, some 40, none⟩] [] 1
    (by simp)).1]
  have hrep : replaceAll0 ⟨some 20171, some 1, some 40, none⟩
      = ⟨some 20171, some 1, some 40, none⟩ := by
    norm_num [replaceAll0, replaceVal]
  simp only [List.map_cons, List.map_nil, hrep]
  norm_num [List.filter_cons, List.filter_nil, List.filterMap_cons, List.filterMap_nil,
    optMean, sMean]
